import Mathlib

/-!
Verification development for the LayeredMolecularEditor utility scripts.

The definitions below are shallow embeddings of the Python sources:
  - `convert_name_to_index` is the resolver duplicated verbatim in
    `example/Ru/bin/check_distance.py`, `example/Ru/bin/group_atoms.py` and
    `utils/obminimize.py`.
  - `LME_Mapping` with its methods embeds the class of
    `example/Ru/bin/gasteiger_charges.py`.
  - `distance_check`, `check_distance_run`, `group_atoms_run`,
    `gasteiger_run`, `xcontrol_lines` and the `obminimize_*_constraints`
    loops embed the corresponding script bodies.
Python dictionaries (unique keys, insertion order) are embedded as
association lists with first-match lookup; Python `float` distances are
embedded as rationals; external cheminformatics calls (distances, atom
types, charges) are passed in as opaque function parameters.
-/

set_option autoImplicit false

/-! ### Python `int(str)` parsing

`int(name)` in the scripts accepts optional surrounding whitespace, an
optional sign, and a non-empty run of decimal digits in which single
underscores may occur strictly between digits. -/

/-- ASCII whitespace accepted by Python `str.strip` / `int`. -/
def pyIsSpace (c : Char) : Bool :=
  c = ' ' || c = '\t' || c = '\n' || c = '\r' || c = '\x0b' || c = '\x0c'

/-- Strip leading and trailing whitespace from a character list. -/
def trimChars (cs : List Char) : List Char :=
  ((cs.dropWhile pyIsSpace).reverse.dropWhile pyIsSpace).reverse

/-- After an initial digit: digits, with single underscores only between digits. -/
def digitRunTail : List Char → Bool
  | [] => true
  | '_' :: c :: cs => c.isDigit && digitRunTail cs
  | ['_'] => false
  | c :: cs => c.isDigit && digitRunTail cs

/-- A valid Python digit run: non-empty, starts with a digit, single
underscores only between digits. -/
def digitRun : List Char → Bool
  | [] => false
  | c :: cs => c.isDigit && digitRunTail cs

/-- Decimal value of a digit run (ignoring underscore separators). -/
def digitsVal (cs : List Char) : Nat :=
  (cs.filter (fun c => c != '_')).foldl (fun acc c => 10 * acc + (c.toNat - '0'.toNat)) 0

/-- Embedding of Python `int(s)` for a decimal string: `some k` on parse
success, `none` when `int(s)` raises `ValueError`. -/
def pyInt (s : String) : Option Int :=
  match trimChars s.data with
  | '+' :: rest => if digitRun rest then some (digitsVal rest : Int) else none
  | '-' :: rest => if digitRun rest then some (-(digitsVal rest : Int)) else none
  | rest => if digitRun rest then some (digitsVal rest : Int) else none

/-! ### The duplicated resolver `convert_name_to_index`

From `check_distance.py` lines 8-20 (identical copies in `group_atoms.py`
and `obminimize.py`): try `int(name)` first; on `ValueError` look the name
up in `groups`, then in `ids`, and raise if both miss. -/

/-- `convert_name_to_index(name, ids, groups)`: `.ok` is the returned list,
`.error` is the `ValueError` message. -/
def convert_name_to_index (name : String) (ids : List (String × Int))
    (groups : List (String × List Int)) : Except String (List Int) :=
  match pyInt name with
  | some n => .ok [n]
  | none =>
    match List.lookup name groups with
    | some value => .ok value
    | none =>
      match List.lookup name ids with
      | some value => .ok [value]
      | none => .error ("No name " ++ name ++ " found in both groups and ids record")

/-! ### The `LME_Mapping` class of `gasteiger_charges.py` -/

/-- A Python dictionary key as it occurs in the `indexes` table: JSON
deserialization produces string keys, while `convert_index` queries with
integer keys; in Python an `int` key never equals a `str` key. -/
inductive PyKey where
  | intKey (n : Int)
  | strKey (s : String)
deriving DecidableEq

/-- A query from the query-list JSON file: either a JSON integer or a
JSON string (Python `int | str`). -/
inductive Query where
  | intQ (n : Int)
  | strQ (s : String)
deriving DecidableEq

/-- The `LME_Mapping` record of `gasteiger_charges.py`. -/
structure LME_Mapping where
  len : Int
  indexes : List (PyKey × Int)
  ids : List (String × Int)
  groups : List (String × List Int)

/-- `LME_Mapping.load_from_json`: a record built from parsed JSON, whose
`indexes` dictionary therefore has string keys only. -/
def LME_Mapping.load_from_json (len : Int) (indexes : List (String × Int))
    (ids : List (String × Int)) (groups : List (String × List Int)) : LME_Mapping :=
  ⟨len, indexes.map (fun p => (PyKey.strKey p.1, p.2)), ids, groups⟩

/-- `convert_index`: `self.indexes.get(index)` with an integer key. -/
def LME_Mapping.convert_index (m : LME_Mapping) (index : Int) : Option Int :=
  List.lookup (PyKey.intKey index) m.indexes

/-- `get_group_indexes`: `self.groups.get(group_name)`. -/
def LME_Mapping.get_group_indexes (m : LME_Mapping) (group_name : String) :
    Option (List Int) :=
  List.lookup group_name m.groups

/-- `get_id_index`: `self.ids.get(id_name)`. -/
def LME_Mapping.get_id_index (m : LME_Mapping) (id_name : String) : Option Int :=
  List.lookup id_name m.ids

/-- `convert_name_to_indexes`: the id table is consulted first, then the
group table; note there is no numeric parse attempt here. -/
def LME_Mapping.convert_name_to_indexes (m : LME_Mapping) (name : String) :
    Option (List Int) :=
  match m.get_id_index name with
  | some id_table_result => some [id_table_result]
  | none => m.get_group_indexes name

/-- `convert_query_to_indexes`: integer queries go through the `indexes`
table, string queries through `convert_name_to_indexes`. -/
def LME_Mapping.convert_query_to_indexes (m : LME_Mapping) : Query → Option (List Int)
  | .intQ query => match m.convert_index query with
    | some result => some [result]
    | none => none
  | .strQ query => m.convert_name_to_indexes query

/-- `convert_queries`: resolve every query independently; if any result is
`None`, raise one `ValueError` whose payload holds the message and the
list of queries whose resolution returned `None`; otherwise flatten the
results in order. -/
def LME_Mapping.convert_queries (m : LME_Mapping) (queries : List Query) :
    Except (String × List Query) (List Int) :=
  let query_results := queries.map m.convert_query_to_indexes
  if query_results.contains none then
    .error ("Follow names or indexes not found in mapping",
      (queries.zip query_results).filterMap
        (fun p => if p.2 = none then some p.1 else none))
  else
    .ok (query_results.flatMap (fun r => r.getD []))

/-! ### `check_distance.py` -/

/-- The `ValueError` raised by the distance check of `check_distance.py`
lines 53-56: the payload carries the measured distance and the two atom
types interpolated into the message. -/
inductive DistanceFailure where
  | tooClose (distance : ℚ) (type_a type_b : String)
  | tooFar (distance : ℚ) (type_a type_b : String)
deriving DecidableEq

/-- Lines 52-56 of `check_distance.py`: raise "too close" when the
distance is below `min_value`, then raise "too far" when it is above
`max_value`, otherwise fall through (pass). -/
def distance_check (distance min_value max_value : ℚ) (type_a type_b : String) :
    Except DistanceFailure Unit :=
  if distance < min_value then .error (.tooClose distance type_a type_b)
  else if distance > max_value then .error (.tooFar distance type_a type_b)
  else .ok ()

/-- Any failure of a `check_distance.py` invocation after the molecule is
loaded: a resolver `ValueError`, the unpacking `ValueError` of
`[[idx_a], [idx_b]] = ...`, or a distance-check `ValueError`. -/
inductive DistanceError where
  | resolveError (msg : String)
  | unpackError
  | distanceError (f : DistanceFailure)
deriving DecidableEq

/-- The `__main__` body of `check_distance.py` after loading: resolve both
names (list comprehension order: `a` first, then `b`), destructure each
result into a single index, then run the distance check. `dist` and
`type_of` stand for the external `GetDistance` / `GetType` calls. -/
def check_distance_run (a b : String) (ids : List (String × Int))
    (groups : List (String × List Int)) (dist : Int → Int → ℚ)
    (min_value max_value : ℚ) (type_of : Int → String) : Except DistanceError Unit :=
  match convert_name_to_index a ids groups, convert_name_to_index b ids groups with
  | .error e, _ => .error (.resolveError e)
  | .ok _, .error e => .error (.resolveError e)
  | .ok ra, .ok rb =>
    match ra, rb with
    | [idx_a], [idx_b] =>
      (distance_check (dist idx_a idx_b) min_value max_value
        (type_of idx_a) (type_of idx_b)).mapError .distanceError
    | _, _ => .error .unpackError

/-! ### `group_atoms.py` -/

/-- The fallible part of the `__main__` body of `group_atoms.py`: resolve
the group name, join the (optionally 1-based) indices with the given
separator, and substitute the pattern in the input text. `.ok` carries
the text that is then written back to the input file; `.error` carries
the resolver `ValueError` message, raised before the file is reopened
for writing. -/
def group_atoms_run (input_content pattern split group_name : String)
    (ids : List (String × Int)) (groups : List (String × List Int))
    (starts_from_1 : Bool) : Except String String :=
  match convert_name_to_index group_name ids groups with
  | .error e => .error e
  | .ok result =>
    .ok (input_content.replace pattern
      (String.intercalate split (result.map (fun value =>
        toString (if starts_from_1 then value + 1 else value)))))

/-- The content of the input file after a `group_atoms.py` invocation:
the file is only rewritten when the whole run succeeded. -/
def group_atoms_final_content (input_content pattern split group_name : String)
    (ids : List (String × Int)) (groups : List (String × List Int))
    (starts_from_1 : Bool) : String :=
  match group_atoms_run input_content pattern split group_name ids groups starts_from_1 with
  | .ok written => written
  | .error _ => input_content

/-! ### The `__main__` body of `gasteiger_charges.py` -/

/-- The fallible part of the `__main__` body of `gasteiger_charges.py`:
resolve the whole query batch, then join the per-index charges with a
comma. `charge` stands for the external Gasteiger-charge lookup. `.ok`
carries the text written to the output file; on `.error` the output file
is never opened. -/
def gasteiger_run (query_list : List Query) (mapping : LME_Mapping)
    (charge : Int → String) : Except (String × List Query) String :=
  match mapping.convert_queries query_list with
  | .error e => .error e
  | .ok qeury_atom_indexes =>
    .ok (String.intercalate "," (qeury_atom_indexes.map charge))

/-! ### `xcontrol.py` -/

/-- The neighbor list of atom `i` built by the dictionary comprehension of
`xcontrol.py` line 13: for every bond `[a, b]` with `a == i or b == i`,
in bond-list order, take `a if a != i else b`. -/
def ffnb_neighbors (bonds : List (Nat × Nat)) (i : Nat) : List Nat :=
  (bonds.filter (fun p => p.1 == i || p.2 == i)).map
    (fun p => if p.1 ≠ i then p.1 else p.2)

/-- The strings written to the control file by `xcontrol.py`, in write
order: the `$ffnb` header, one `nb = i: ...` line per atom index (1-based
rendering), and the `$end` trailer. Raw bonds are `[a, b, order]`
triples; line 11 keeps only the two endpoints. -/
def xcontrol_lines (atoms_count : Nat) (bondsRaw : List (Nat × Nat × Nat)) :
    List String :=
  let bonds := bondsRaw.map (fun t => (t.1, t.2.1))
  ["$ffnb\n"]
  ++ (List.range atoms_count).map (fun idx =>
      "  nb = " ++ toString (idx + 1) ++ ": "
      ++ String.intercalate ", " ((ffnb_neighbors bonds idx).map
          (fun neighbor => toString (neighbor + 1)))
      ++ "\n")
  ++ ["$end\n"]

/-- The full text of the generated control file. -/
def xcontrol_content (atoms_count : Nat) (bondsRaw : List (Nat × Nat × Nat)) : String :=
  String.join (xcontrol_lines atoms_count bondsRaw)

/-! ### The constraint-resolution loops of `obminimize.py` -/

/-- A failure while resolving a constraint list in `obminimize.py`: either
a resolver `ValueError` or the unpacking `ValueError` of a destructuring
assignment such as `[[a], [b]] = ...`. -/
inductive ObminimizeError where
  | resolveError (msg : String)
  | unpackError
deriving DecidableEq

/-- Lines 55-60 of `obminimize.py`: for each `[a, b, distance]` constraint
resolve both names (comprehension order) and destructure each result into
a single index. -/
def obminimize_distance_constraints (ids : List (String × Int))
    (groups : List (String × List Int)) :
    List (String × String × Option ℚ) →
      Except ObminimizeError (List (Int × Int × Option ℚ))
  | [] => .ok []
  | (a, b, d) :: rest =>
    match convert_name_to_index a ids groups, convert_name_to_index b ids groups with
    | .error e, _ => .error (.resolveError e)
    | .ok _, .error e => .error (.resolveError e)
    | .ok ra, .ok rb =>
      match ra, rb with
      | [a'], [b'] =>
        match obminimize_distance_constraints ids groups rest with
        | .error e => .error e
        | .ok rest' => .ok ((a', b', d) :: rest')
      | _, _ => .error .unpackError

/-- Lines 62-67 of `obminimize.py`: the same for `[a, b, c, angle]`. -/
def obminimize_angle_constraints (ids : List (String × Int))
    (groups : List (String × List Int)) :
    List (String × String × String × Option ℚ) →
      Except ObminimizeError (List (Int × Int × Int × Option ℚ))
  | [] => .ok []
  | (a, b, c, ang) :: rest =>
    match convert_name_to_index a ids groups, convert_name_to_index b ids groups,
        convert_name_to_index c ids groups with
    | .error e, _, _ => .error (.resolveError e)
    | .ok _, .error e, _ => .error (.resolveError e)
    | .ok _, .ok _, .error e => .error (.resolveError e)
    | .ok ra, .ok rb, .ok rc =>
      match ra, rb, rc with
      | [a'], [b'], [c'] =>
        match obminimize_angle_constraints ids groups rest with
        | .error e => .error e
        | .ok rest' => .ok ((a', b', c', ang) :: rest')
      | _, _, _ => .error .unpackError

/-- Lines 69-74 of `obminimize.py`: the same for `[a, b, c, d, torsion]`. -/
def obminimize_torsion_constraints (ids : List (String × Int))
    (groups : List (String × List Int)) :
    List (String × String × String × String × Option ℚ) →
      Except ObminimizeError (List (Int × Int × Int × Int × Option ℚ))
  | [] => .ok []
  | (a, b, c, d, tor) :: rest =>
    match convert_name_to_index a ids groups, convert_name_to_index b ids groups,
        convert_name_to_index c ids groups, convert_name_to_index d ids groups with
    | .error e, _, _, _ => .error (.resolveError e)
    | .ok _, .error e, _, _ => .error (.resolveError e)
    | .ok _, .ok _, .error e, _ => .error (.resolveError e)
    | .ok _, .ok _, .ok _, .error e => .error (.resolveError e)
    | .ok ra, .ok rb, .ok rc, .ok rd =>
      match ra, rb, rc, rd with
      | [a'], [b'], [c'], [d'] =>
        match obminimize_torsion_constraints ids groups rest with
        | .error e => .error e
        | .ok rest' => .ok ((a', b', c', d', tor) :: rest')
      | _, _, _, _ => .error .unpackError

/-! ## Claims about the resolvers -/

/-- C1 counterexample: with the name `x` present in both tables, the
charge-path routine `convert_name_to_indexes` consults the id table first
and returns `[ids[x]] = [5]`, not `groups[x] = [1, 2]`, so not every
resolution routine of the repository returns the stored group sequence. -/
theorem claim_C1_counterexample :
    pyInt "x" = none
    ∧ (LME_Mapping.load_from_json 0 [] [("x", 5)] [("x", [1, 2])]).get_group_indexes "x"
        = some [1, 2]
    ∧ (LME_Mapping.load_from_json 0 [] [("x", 5)] [("x", [1, 2])]).convert_name_to_indexes "x"
        = some [5]
    ∧ some [(5 : Int)] ≠ some [(1 : Int), 2] :=
  ⟨by decide, rfl, rfl, by decide⟩

/-- C1 (amended): for a non-integer name found in `groups`, the shared
`convert_name_to_index` returns the stored group sequence order-preserved
even when the name is also a key of `ids` (groups are consulted first);
the charge-path `convert_name_to_indexes` returns the stored group
sequence only when the name is absent from `ids` (ids are consulted
first). -/
theorem claim_C1_amended (name : String) (v : List Int) (ids : List (String × Int))
    (groups : List (String × List Int)) (m : LME_Mapping)
    (hparse : pyInt name = none) (hg : List.lookup name groups = some v)
    (hid : m.get_id_index name = none) (hg2 : m.get_group_indexes name = some v) :
    convert_name_to_index name ids groups = .ok v
    ∧ m.convert_name_to_indexes name = some v := by
  constructor
  · unfold convert_name_to_index
    rw [hparse, hg]
  · unfold LME_Mapping.convert_name_to_indexes
    rw [hid, hg2]

/-- C1 witness: the amended statement evaluated at the name `x` stored in
`groups` as `[1, 2]` (and shadowed in `ids` for the shared resolver). -/
theorem claim_C1_witness :
    convert_name_to_index "x" [("x", 5)] [("x", [1, 2])] = .ok [1, 2]
    ∧ (LME_Mapping.load_from_json 0 [] [] [("x", [1, 2])]).convert_name_to_indexes "x"
        = some [1, 2] :=
  claim_C1_amended "x" [1, 2] [("x", 5)] [("x", [1, 2])]
    (LME_Mapping.load_from_json 0 [] [] [("x", [1, 2])]) (by decide) rfl rfl rfl

/-- C2 counterexample: the string `7` parses as an integer, yet the
charge-path string resolution (`convert_query_to_indexes` on a string)
performs no numeric parse: on a record whose tables are empty it returns
`None` instead of `[7]`. -/
theorem claim_C2_counterexample :
    pyInt "7" = some 7
    ∧ (LME_Mapping.load_from_json 0 [] [] []).convert_query_to_indexes (Query.strQ "7")
        = none
    ∧ (none : Option (List Int)) ≠ some [(7 : Int)] :=
  ⟨by decide, rfl, by decide⟩

/-- C2 (amended): the shared `convert_name_to_index` returns `[int(s)]`
for every integer-parsing string, with no table lookup afterwards (the
result does not depend on either table); the charge-path string
resolution performs no numeric parse at all: a string query goes straight
to the id/group tables, and an integer-looking string absent from both
tables fails to resolve. -/
theorem claim_C2_amended (s : String) (k : Int) (ids : List (String × Int))
    (groups : List (String × List Int)) (m : LME_Mapping)
    (hk : pyInt s = some k) :
    convert_name_to_index s ids groups = .ok [k]
    ∧ m.convert_query_to_indexes (Query.strQ s) = m.convert_name_to_indexes s
    ∧ (m.get_id_index s = none → m.get_group_indexes s = none →
        m.convert_query_to_indexes (Query.strQ s) = none) := by
  refine ⟨?_, rfl, fun h1 h2 => ?_⟩
  · unfold convert_name_to_index
    rw [hk]
  · show m.convert_name_to_indexes s = none
    unfold LME_Mapping.convert_name_to_indexes
    rw [h1, h2]

/-- C2 witness: the amended statement evaluated at the string `7`, which
is also a key of both tables for the shared resolver, and absent from the
tables of the charge-path record. -/
theorem claim_C2_witness :
    convert_name_to_index "7" [("7", 0)] [("7", [1, 2])] = .ok [7]
    ∧ (LME_Mapping.load_from_json 0 [] [] []).convert_query_to_indexes (Query.strQ "7")
        = (LME_Mapping.load_from_json 0 [] [] []).convert_name_to_indexes "7"
    ∧ (LME_Mapping.load_from_json 0 [] [] []).convert_query_to_indexes (Query.strQ "7")
        = none :=
  have h := claim_C2_amended "7" 7 [("7", 0)] [("7", [1, 2])]
    (LME_Mapping.load_from_json 0 [] [] []) (by decide)
  ⟨h.1, h.2.1, h.2.2 rfl rfl⟩

/-- C4 counterexample: with caller-supplied bounds `min = 3, max = 0` and
distance `1`, the distance exceeds `max` yet the check raises the
"too close" failure (the `d < min` branch fires first), not the
"too far" failure the claim requires for `d > max`. -/
theorem claim_C4_counterexample :
    (1 : ℚ) > 0
    ∧ distance_check 1 3 0 "A" "B" = .error (.tooClose 1 "A" "B") := by
  constructor
  · norm_num
  · rfl

/-- C4 (amended): the distance check passes iff `min ≤ d ≤ max` (so both
boundary values pass); `d < min` raises the "too close" failure; `d > max`
raises the distinct "too far" failure provided `min ≤ d` (which holds in
particular whenever `min ≤ max`). -/
theorem claim_C4_amended (d mn mx : ℚ) (ta tb : String) :
    (distance_check d mn mx ta tb = .ok () ↔ mn ≤ d ∧ d ≤ mx)
    ∧ (d < mn → distance_check d mn mx ta tb = .error (.tooClose d ta tb))
    ∧ (mn ≤ d → mx < d → distance_check d mn mx ta tb = .error (.tooFar d ta tb))
    ∧ DistanceFailure.tooClose d ta tb ≠ DistanceFailure.tooFar d ta tb := by
  refine ⟨⟨fun hok => ?_, fun h => ?_⟩, fun h => ?_, fun h1 h2 => ?_, by simp⟩
  · unfold distance_check at hok
    split_ifs at hok with h1 h2
    exact ⟨not_lt.mp h1, not_lt.mp h2⟩
  · unfold distance_check
    rw [if_neg (not_lt.mpr h.1), if_neg (not_lt.mpr h.2)]
  · unfold distance_check
    rw [if_pos h]
  · unfold distance_check
    rw [if_neg (not_lt.mpr h1), if_pos h2]

/-- C4 witness: boundary value `d = min = max = 2` passes; `d = 1` below
`min = 2` raises "too close"; `d = 4` above `max = 3` raises "too far". -/
theorem claim_C4_witness :
    distance_check 2 2 2 "A" "B" = .ok ()
    ∧ distance_check 1 2 3 "A" "B" = .error (.tooClose 1 "A" "B")
    ∧ distance_check 4 2 3 "A" "B" = .error (.tooFar 4 "A" "B") :=
  ⟨(claim_C4_amended 2 2 2 "A" "B").1.mpr ⟨le_refl 2, le_refl 2⟩,
   (claim_C4_amended 1 2 3 "A" "B").2.1 (by norm_num),
   (claim_C4_amended 4 2 3 "A" "B").2.2.1 (by norm_num) (by norm_num)⟩

/-- C5 counterexample: resolving the name `g` of a group whose stored
index sequence is empty returns the empty sequence, so the resolver does
not always return a non-empty sequence. -/
theorem claim_C5_counterexample :
    convert_name_to_index "g" [] [("g", ([] : List Int))] = .ok [] := rfl

/-- C5 (amended): the resolver returns a non-empty sequence in every case
except when the reference names a group whose stored sequence is empty,
in which case it returns that empty sequence verbatim: an `.ok []` result
forces a failed numeric parse and an empty stored group, an integer parse
yields a singleton, and a groups miss (id or integer hit) yields a
singleton. -/
theorem claim_C5_amended (name : String) (ids : List (String × Int))
    (groups : List (String × List Int)) (l : List Int)
    (h : convert_name_to_index name ids groups = .ok l) :
    (l = [] → pyInt name = none ∧ List.lookup name groups = some [])
    ∧ (∀ k, pyInt name = some k → l = [k])
    ∧ (List.lookup name groups = none → l.length = 1) := by
  unfold convert_name_to_index at h
  split at h
  · rename_i n hp
    injection h with h
    subst h
    refine ⟨fun hnil => by simp at hnil, fun k hk => ?_, fun _ => rfl⟩
    rw [hp] at hk
    injection hk with hk
    rw [hk]
  · rename_i hp
    split at h
    · rename_i v hg
      injection h with h
      subst h
      exact ⟨fun hnil => ⟨hp, hnil ▸ hg⟩,
        fun k hk => absurd hk (hp ▸ fun hc => Option.noConfusion hc),
        fun hn => absurd hg (hn ▸ fun hc => Option.noConfusion hc)⟩
    · rename_i hg
      split at h
      · rename_i v hi
        injection h with h
        subst h
        exact ⟨fun hnil => by simp at hnil,
          fun k hk => absurd hk (hp ▸ fun hc => Option.noConfusion hc),
          fun _ => rfl⟩
      · exact absurd h (by simp)

/-- C5 witness: the amended statement evaluated at the empty group `g`,
recovering the failed parse and the empty stored sequence. -/
theorem claim_C5_witness :
    pyInt "g" = none ∧ List.lookup "g" [("g", ([] : List Int))] = some [] :=
  (claim_C5_amended "g" [] [("g", [])] [] rfl).1 rfl

/-- C6: for a string that does not parse as an integer and is absent from
both tables, `convert_name_to_index` raises the `ValueError` whose
message embeds the offending name and mentions both searched tables
(`groups` and `ids`). -/
theorem claim_C6 (name : String) (ids : List (String × Int))
    (groups : List (String × List Int))
    (hp : pyInt name = none) (hg : List.lookup name groups = none)
    (hi : List.lookup name ids = none) :
    convert_name_to_index name ids groups
      = .error ("No name " ++ name ++ " found in both groups and ids record")
    ∧ name.data <:+: ("No name " ++ name ++ " found in both groups and ids record").data
    ∧ "groups".data <:+: ("No name " ++ name ++ " found in both groups and ids record").data
    ∧ "ids".data <:+: ("No name " ++ name ++ " found in both groups and ids record").data := by
  have hmsg : ("No name " ++ name ++ " found in both groups and ids record").data
      = "No name ".data ++ name.data ++ " found in both groups and ids record".data := by
    simp [String.data_append]
  have htail : " found in both groups and ids record".data
      <:+: ("No name " ++ name ++ " found in both groups and ids record").data := by
    rw [hmsg]
    exact ⟨"No name ".data ++ name.data, [], by simp⟩
  refine ⟨?_, ?_, ?_, ?_⟩
  · unfold convert_name_to_index
    rw [hp, hg, hi]
  · rw [hmsg]
    exact ⟨"No name ".data, " found in both groups and ids record".data, by simp⟩
  · exact List.IsInfix.trans (by decide) htail
  · exact List.IsInfix.trans (by decide) htail

/-- C6 witness: the name `X`, absent from both (empty) tables, produces
the error naming `X` and both tables. -/
theorem claim_C6_witness :
    convert_name_to_index "X" [] []
      = .error ("No name " ++ "X" ++ " found in both groups and ids record")
    ∧ "X".data <:+: ("No name " ++ "X" ++ " found in both groups and ids record").data
    ∧ "groups".data <:+: ("No name " ++ "X" ++ " found in both groups and ids record").data
    ∧ "ids".data <:+: ("No name " ++ "X" ++ " found in both groups and ids record").data :=
  claim_C6 "X" [] [] (by decide) rfl rfl

/-- The enumerate-style payload of `convert_queries` equals the list of
queries whose resolution returns `None`, kept in query order. -/
theorem convert_queries_payload (f : Query → Option (List Int)) (qs : List Query) :
    (qs.zip (qs.map f)).filterMap (fun p => if p.2 = none then some p.1 else none)
      = qs.filter (fun q => (f q).isNone) := by
  induction qs with
  | nil => rfl
  | cons q rest ih =>
    simp only [List.map_cons, List.zip_cons_cons, List.filterMap_cons, List.filter_cons]
    cases hfq : f q <;> simp [ih]

/-- Membership form of the `None in query_results` test. -/
theorem map_contains_none_iff (f : Query → Option (List Int)) (qs : List Query) :
    (qs.map f).contains none = true ↔ ∃ q ∈ qs, f q = none := by
  induction qs with
  | nil => simp
  | cons q rest ih =>
    rw [List.map_cons, List.contains_cons]
    simp only [Bool.or_eq_true, ih, beq_iff_eq]
    constructor
    · rintro (h | ⟨q', hq', hn⟩)
      · exact ⟨q, List.mem_cons_self q rest, h.symm⟩
      · exact ⟨q', List.mem_cons_of_mem _ hq', hn⟩
    · rintro ⟨q', hq', hn⟩
      rcases List.mem_cons.mp hq' with rfl | hmem
      · exact Or.inl hn.symm
      · exact Or.inr ⟨q', hmem, hn⟩

/-- When some query fails to resolve, `convert_queries` raises the single
aggregate error listing every unresolved query. -/
theorem convert_queries_error_char (m : LME_Mapping) (queries : List Query)
    (h : ∃ q ∈ queries, m.convert_query_to_indexes q = none) :
    m.convert_queries queries
      = .error ("Follow names or indexes not found in mapping",
          queries.filter (fun q => (m.convert_query_to_indexes q).isNone)) := by
  unfold LME_Mapping.convert_queries
  rw [if_pos ((map_contains_none_iff _ _).mpr h), convert_queries_payload]

/-- When every query resolves, `convert_queries` raises nothing and
returns the flattened results in order. -/
theorem convert_queries_ok_char (m : LME_Mapping) (queries : List Query)
    (h : ∀ q ∈ queries, m.convert_query_to_indexes q ≠ none) :
    m.convert_queries queries
      = .ok ((queries.map m.convert_query_to_indexes).flatMap (fun r => r.getD [])) := by
  have hnc : ¬ ((queries.map m.convert_query_to_indexes).contains none = true) := by
    intro hc
    obtain ⟨q, hq, hnone⟩ := (map_contains_none_iff _ _).mp hc
    exact h q hq hnone
  unfold LME_Mapping.convert_queries
  rw [if_neg hnc]

/-- C3: batch resolution does not fail on the first miss: when every query
resolves no error is raised, and when any query fails to resolve exactly
one error is raised, whose payload is precisely the queries whose
resolution failed (as a sublist of the batch, hence the same set). -/
theorem claim_C3 (m : LME_Mapping) (queries : List Query) :
    ((∀ q ∈ queries, m.convert_query_to_indexes q ≠ none) →
      m.convert_queries queries
        = .ok ((queries.map m.convert_query_to_indexes).flatMap (fun r => r.getD [])))
    ∧ ((∃ q ∈ queries, m.convert_query_to_indexes q = none) →
      m.convert_queries queries
        = .error ("Follow names or indexes not found in mapping",
            queries.filter (fun q => (m.convert_query_to_indexes q).isNone)))
    ∧ (∀ q, q ∈ queries.filter (fun q => (m.convert_query_to_indexes q).isNone)
        ↔ q ∈ queries ∧ m.convert_query_to_indexes q = none) := by
  refine ⟨convert_queries_ok_char m queries, convert_queries_error_char m queries, fun q => ?_⟩
  simp [List.mem_filter, Option.isNone_iff_eq_none]

/-- C3 witness: the batch `["A", "B", "C"]` with only `B` unresolvable
fails once with payload exactly `["B"]`, and the fully resolvable batch
`["A", "C"]` raises nothing. -/
theorem claim_C3_witness :
    (LME_Mapping.load_from_json 0 [] [("A", 0), ("C", 2)] []).convert_queries
        [Query.strQ "A", Query.strQ "B", Query.strQ "C"]
      = .error ("Follow names or indexes not found in mapping", [Query.strQ "B"])
    ∧ (LME_Mapping.load_from_json 0 [] [("A", 0), ("C", 2)] []).convert_queries
        [Query.strQ "A", Query.strQ "C"] = .ok [0, 2] := by
  constructor
  · have h := (claim_C3 (LME_Mapping.load_from_json 0 [] [("A", 0), ("C", 2)] [])
      [Query.strQ "A", Query.strQ "B", Query.strQ "C"]).2.1
      ⟨Query.strQ "B", by decide, rfl⟩
    exact h.trans rfl
  · have h := (claim_C3 (LME_Mapping.load_from_json 0 [] [("A", 0), ("C", 2)] [])
      [Query.strQ "A", Query.strQ "C"]).1 (by decide)
    exact h.trans rfl

/-- An integer key never hits a table whose keys all came from JSON object
keys (strings). -/
theorem lookup_intKey_strKeys (q : Int) (indexes : List (String × Int)) :
    List.lookup (PyKey.intKey q)
      (indexes.map (fun p => (PyKey.strKey p.1, p.2))) = none := by
  induction indexes with
  | nil => rfl
  | cons p rest ih =>
    obtain ⟨s, v⟩ := p
    simp only [List.map_cons, List.lookup_cons]
    rw [show (PyKey.intKey q == PyKey.strKey s) = false from rfl]
    exact ih

/-- C9: on a record loaded from JSON the `indexes` dictionary has string
keys, so `convert_index` misses for every integer query,
`convert_query_to_indexes` returns `None` on every integer query, and any
batch containing an integer query fails with the aggregate not-found
error whose payload lists that integer query. -/
theorem claim_C9 (len : Int) (indexes ids0 : List (String × Int))
    (groups0 : List (String × List Int)) (q : Int) (queries : List Query)
    (hq : Query.intQ q ∈ queries) :
    (LME_Mapping.load_from_json len indexes ids0 groups0).convert_index q = none
    ∧ (LME_Mapping.load_from_json len indexes ids0 groups0).convert_query_to_indexes
        (Query.intQ q) = none
    ∧ (LME_Mapping.load_from_json len indexes ids0 groups0).convert_queries queries
        = .error ("Follow names or indexes not found in mapping",
            queries.filter (fun q' =>
              ((LME_Mapping.load_from_json len indexes ids0 groups0).convert_query_to_indexes
                q').isNone))
    ∧ Query.intQ q ∈ queries.filter (fun q' =>
        ((LME_Mapping.load_from_json len indexes ids0 groups0).convert_query_to_indexes
          q').isNone) := by
  have hmiss : (LME_Mapping.load_from_json len indexes ids0 groups0).convert_index q
      = none := lookup_intKey_strKeys q indexes
  have hnone : (LME_Mapping.load_from_json len indexes ids0 groups0).convert_query_to_indexes
      (Query.intQ q) = none := by
    show (match (LME_Mapping.load_from_json len indexes ids0 groups0).convert_index q with
      | some result => some [result]
      | none => none) = none
    rw [hmiss]
  refine ⟨hmiss, hnone, convert_queries_error_char _ queries ⟨Query.intQ q, hq, hnone⟩, ?_⟩
  rw [List.mem_filter]
  exact ⟨hq, by rw [hnone]; rfl⟩

/-- C9 witness: a record whose JSON `indexes` table binds the string key
`3`; the integer query `3` still misses and makes the batch `[3]` fail,
listing `3`. -/
theorem claim_C9_witness :
    (LME_Mapping.load_from_json 0 [("3", 7)] [] []).convert_index 3 = none
    ∧ (LME_Mapping.load_from_json 0 [("3", 7)] [] []).convert_queries [Query.intQ 3]
        = .error ("Follow names or indexes not found in mapping", [Query.intQ 3]) :=
  have h := claim_C9 0 [("3", 7)] [] [] 3 [Query.intQ 3] (by decide)
  ⟨h.1, h.2.2.1.trans rfl⟩

/-- The opposite endpoint of a bond with respect to atom `i` (the bond is
assumed incident to `i`; for a self-loop the opposite endpoint is `i`). -/
def opposite_endpoint (i : Nat) (p : Nat × Nat) : Nat :=
  if p.1 = i then p.2 else p.1

/-- The neighbor list built by `xcontrol.py` is exactly the opposite
endpoint of every incident bond, in bond-list order. -/
theorem ffnb_neighbors_spec (bonds : List (Nat × Nat)) (i : Nat) :
    ffnb_neighbors bonds i
      = (bonds.filter (fun p => p.1 == i || p.2 == i)).map (opposite_endpoint i) := by
  unfold ffnb_neighbors
  have hfun : (fun p : Nat × Nat => if p.1 ≠ i then p.1 else p.2) = opposite_endpoint i := by
    funext p
    unfold opposite_endpoint
    by_cases h : p.1 = i <;> simp [h]
  rw [hfun]

/-- C7: the generated control file is the concatenation of a `$ffnb`
line, one line per atom index `i` from `0` to `atoms_count - 1` in
increasing order rendering `i + 1` and the 1-based opposite endpoints of
the incident bonds in bond-list order, and a `$end` line. -/
theorem claim_C7 (atoms_count : Nat) (bondsRaw : List (Nat × Nat × Nat)) :
    xcontrol_content atoms_count bondsRaw = String.join (xcontrol_lines atoms_count bondsRaw)
    ∧ (xcontrol_lines atoms_count bondsRaw).length = atoms_count + 2
    ∧ (xcontrol_lines atoms_count bondsRaw).head? = some "$ffnb\n"
    ∧ (xcontrol_lines atoms_count bondsRaw).getLast? = some "$end\n"
    ∧ ∀ i, i < atoms_count →
        (xcontrol_lines atoms_count bondsRaw)[i + 1]?
          = some ("  nb = " ++ toString (i + 1) ++ ": "
              ++ String.intercalate ", "
                ((((bondsRaw.map (fun t => (t.1, t.2.1))).filter
                    (fun p => p.1 == i || p.2 == i)).map (opposite_endpoint i)).map
                  (fun neighbor => toString (neighbor + 1)))
              ++ "\n") := by
  refine ⟨rfl, ?_, rfl, ?_, fun i hi => ?_⟩
  · simp only [xcontrol_lines, List.length_append, List.length_map, List.length_range,
      List.length_cons, List.length_nil]
    omega
  · simp only [xcontrol_lines]
    rw [List.getLast?_concat]
  · simp only [xcontrol_lines, List.cons_append, List.nil_append,
      List.getElem?_cons_succ]
    rw [List.getElem?_append_left (by simpa using hi), List.getElem?_map,
      List.getElem?_range hi]
    simp [ffnb_neighbors_spec]

/-- C7 witness: two atoms joined by the single bond `[0, 1, 1]` produce
four lines; line 1 is the neighbor line of atom `0`, rendered 1-based as
`nb = 1: 2`. -/
theorem claim_C7_witness :
    (xcontrol_lines 2 [(0, 1, 1)]).length = 4
    ∧ (xcontrol_lines 2 [(0, 1, 1)])[1]? = some "  nb = 1: 2\n" := by
  refine ⟨(claim_C7 2 [(0, 1, 1)]).2.1, ?_⟩
  have h := (claim_C7 2 [(0, 1, 1)]).2.2.2.2 0 (by decide)
  rw [h]
  rfl

/-- C8: each tool invocation writes its output only when the whole
operation completes. When name resolution fails in `group_atoms.py` the
run raises before the input file is reopened for writing, so the input
text is left unchanged; when batch resolution fails in
`gasteiger_charges.py` the run raises before the output file is opened;
and in both tools a successful run produces exactly the completed output
text. -/
theorem claim_C8 (input_content pattern split group_name : String)
    (ids : List (String × Int)) (groups : List (String × List Int))
    (starts_from_1 : Bool) (query_list : List Query) (m : LME_Mapping)
    (charge : Int → String) :
    (∀ e, convert_name_to_index group_name ids groups = .error e →
      group_atoms_run input_content pattern split group_name ids groups starts_from_1
          = .error e
      ∧ group_atoms_final_content input_content pattern split group_name ids groups
          starts_from_1 = input_content)
    ∧ (∀ e, m.convert_queries query_list = .error e →
        gasteiger_run query_list m charge = .error e)
    ∧ (∀ out, m.convert_queries query_list = .ok out →
        gasteiger_run query_list m charge
          = .ok (String.intercalate "," (out.map charge)))
    ∧ (∀ v, convert_name_to_index group_name ids groups = .ok v →
        group_atoms_run input_content pattern split group_name ids groups starts_from_1
          = .ok (input_content.replace pattern
              (String.intercalate split (v.map (fun value =>
                toString (if starts_from_1 then value + 1 else value)))))) := by
  refine ⟨fun e he => ⟨?_, ?_⟩, fun e he => ?_, fun out hout => ?_, fun v hv => ?_⟩
  · unfold group_atoms_run
    rw [he]
  · unfold group_atoms_final_content group_atoms_run
    rw [he]
  · unfold gasteiger_run
    rw [he]
  · unfold gasteiger_run
    rw [hout]
  · unfold group_atoms_run
    rw [hv]

/-- C8 witness: the unresolvable name `X` leaves the in-place file text
`hello` unchanged, and the unresolvable batch `["B"]` makes the charge
tool fail with the aggregate error instead of producing output, while a
resolvable run produces the completed output text. -/
theorem claim_C8_witness :
    group_atoms_final_content "hello" "p" "," "X" [] [] false = "hello"
    ∧ gasteiger_run [Query.strQ "B"] (LME_Mapping.load_from_json 0 [] [] [])
        (fun _ => "0.1")
        = .error ("Follow names or indexes not found in mapping", [Query.strQ "B"])
    ∧ gasteiger_run [Query.strQ "A"] (LME_Mapping.load_from_json 0 [] [("A", 0)] [])
        (fun _ => "0.1") = .ok "0.1" :=
  ⟨((claim_C8 "hello" "p" "," "X" [] [] false [Query.strQ "B"]
      (LME_Mapping.load_from_json 0 [] [] []) (fun _ => "0.1")).1 _ rfl).2,
   (claim_C8 "hello" "p" "," "X" [] [] false [Query.strQ "B"]
      (LME_Mapping.load_from_json 0 [] [] []) (fun _ => "0.1")).2.1 _ rfl,
   ((claim_C8 "hello" "p" "," "X" [] [] false [Query.strQ "A"]
      (LME_Mapping.load_from_json 0 [] [("A", 0)] []) (fun _ => "0.1")).2.2.1 [0] rfl).trans
     rfl⟩

/-- When every distance-constraint reference resolves to a singleton, the
distance loop of `obminimize.py` succeeds. -/
theorem obminimize_distance_ok (ids : List (String × Int))
    (groups : List (String × List Int)) :
    ∀ cs : List (String × String × Option ℚ),
      (∀ c ∈ cs, (∃ x, convert_name_to_index c.1 ids groups = .ok [x])
        ∧ (∃ y, convert_name_to_index c.2.1 ids groups = .ok [y])) →
      ∃ out, obminimize_distance_constraints ids groups cs = .ok out
  | [], _ => ⟨[], rfl⟩
  | (ca, cb, cd) :: rest, hall => by
    obtain ⟨⟨x, hx⟩, ⟨y, hy⟩⟩ := hall (ca, cb, cd) (List.mem_cons_self _ _)
    have hx' : convert_name_to_index ca ids groups = .ok [x] := hx
    have hy' : convert_name_to_index cb ids groups = .ok [y] := hy
    obtain ⟨out, hout⟩ := obminimize_distance_ok ids groups rest
      (fun c hc => hall c (List.mem_cons_of_mem _ hc))
    refine ⟨(x, y, cd) :: out, ?_⟩
    simp only [obminimize_distance_constraints]
    rw [hx', hy', hout]

/-- When every distance-constraint reference resolves but some constraint
has a reference that does not resolve to a singleton, the distance loop
of `obminimize.py` fails with the unpacking error. -/
theorem obminimize_distance_bad (ids : List (String × Int))
    (groups : List (String × List Int)) :
    ∀ cs : List (String × String × Option ℚ),
      (∀ c ∈ cs, (∃ la, convert_name_to_index c.1 ids groups = .ok la)
        ∧ (∃ lb, convert_name_to_index c.2.1 ids groups = .ok lb)) →
      (∃ c ∈ cs, ∀ x y, ¬ (convert_name_to_index c.1 ids groups = .ok [x]
          ∧ convert_name_to_index c.2.1 ids groups = .ok [y])) →
      obminimize_distance_constraints ids groups cs = .error .unpackError
  | [], _, hbad => absurd hbad (by simp)
  | (ca, cb, cd) :: rest, hall, hbad => by
    obtain ⟨⟨la, hla⟩, ⟨lb, hlb⟩⟩ := hall (ca, cb, cd) (List.mem_cons_self _ _)
    have hla' : convert_name_to_index ca ids groups = .ok la := hla
    have hlb' : convert_name_to_index cb ids groups = .ok lb := hlb
    simp only [obminimize_distance_constraints]
    rw [hla', hlb']
    rcases la with _ | ⟨x, _ | ⟨x2, la⟩⟩ <;> rcases lb with _ | ⟨y, _ | ⟨y2, lb⟩⟩ <;>
      try rfl
    have hbad' : ∃ c ∈ rest, ∀ x y,
        ¬ (convert_name_to_index c.1 ids groups = .ok [x]
          ∧ convert_name_to_index c.2.1 ids groups = .ok [y]) := by
      rcases hbad with ⟨c, hc, hcb⟩
      rcases List.mem_cons.mp hc with rfl | hmem
      · exact absurd ⟨hla', hlb'⟩ (hcb x y)
      · exact ⟨c, hmem, hcb⟩
    rw [obminimize_distance_bad ids groups rest
      (fun c hc => hall c (List.mem_cons_of_mem _ hc)) hbad']

/-- When every angle-constraint reference resolves to a singleton, the
angle loop of `obminimize.py` succeeds. -/
theorem obminimize_angle_ok (ids : List (String × Int))
    (groups : List (String × List Int)) :
    ∀ cs : List (String × String × String × Option ℚ),
      (∀ c ∈ cs, (∃ x, convert_name_to_index c.1 ids groups = .ok [x])
        ∧ (∃ y, convert_name_to_index c.2.1 ids groups = .ok [y])
        ∧ (∃ z, convert_name_to_index c.2.2.1 ids groups = .ok [z])) →
      ∃ out, obminimize_angle_constraints ids groups cs = .ok out
  | [], _ => ⟨[], rfl⟩
  | (ca, cb, cc, cang) :: rest, hall => by
    obtain ⟨⟨x, hx⟩, ⟨y, hy⟩, ⟨z, hz⟩⟩ := hall (ca, cb, cc, cang) (List.mem_cons_self _ _)
    have hx' : convert_name_to_index ca ids groups = .ok [x] := hx
    have hy' : convert_name_to_index cb ids groups = .ok [y] := hy
    have hz' : convert_name_to_index cc ids groups = .ok [z] := hz
    obtain ⟨out, hout⟩ := obminimize_angle_ok ids groups rest
      (fun c hc => hall c (List.mem_cons_of_mem _ hc))
    refine ⟨(x, y, z, cang) :: out, ?_⟩
    simp only [obminimize_angle_constraints]
    rw [hx', hy', hz', hout]

/-- When every angle-constraint reference resolves but some constraint has
a reference that does not resolve to a singleton, the angle loop of
`obminimize.py` fails with the unpacking error. -/
theorem obminimize_angle_bad (ids : List (String × Int))
    (groups : List (String × List Int)) :
    ∀ cs : List (String × String × String × Option ℚ),
      (∀ c ∈ cs, (∃ la, convert_name_to_index c.1 ids groups = .ok la)
        ∧ (∃ lb, convert_name_to_index c.2.1 ids groups = .ok lb)
        ∧ (∃ lc, convert_name_to_index c.2.2.1 ids groups = .ok lc)) →
      (∃ c ∈ cs, ∀ x y z, ¬ (convert_name_to_index c.1 ids groups = .ok [x]
          ∧ convert_name_to_index c.2.1 ids groups = .ok [y]
          ∧ convert_name_to_index c.2.2.1 ids groups = .ok [z])) →
      obminimize_angle_constraints ids groups cs = .error .unpackError
  | [], _, hbad => absurd hbad (by simp)
  | (ca, cb, cc, cang) :: rest, hall, hbad => by
    obtain ⟨⟨la, hla⟩, ⟨lb, hlb⟩, ⟨lc, hlc⟩⟩ := hall (ca, cb, cc, cang)
      (List.mem_cons_self _ _)
    have hla' : convert_name_to_index ca ids groups = .ok la := hla
    have hlb' : convert_name_to_index cb ids groups = .ok lb := hlb
    have hlc' : convert_name_to_index cc ids groups = .ok lc := hlc
    simp only [obminimize_angle_constraints]
    rw [hla', hlb', hlc']
    rcases la with _ | ⟨x, _ | ⟨x2, la⟩⟩ <;> rcases lb with _ | ⟨y, _ | ⟨y2, lb⟩⟩ <;>
      rcases lc with _ | ⟨z, _ | ⟨z2, lc⟩⟩ <;> try rfl
    have hbad' : ∃ c ∈ rest, ∀ x y z,
        ¬ (convert_name_to_index c.1 ids groups = .ok [x]
          ∧ convert_name_to_index c.2.1 ids groups = .ok [y]
          ∧ convert_name_to_index c.2.2.1 ids groups = .ok [z]) := by
      rcases hbad with ⟨c, hc, hcb⟩
      rcases List.mem_cons.mp hc with rfl | hmem
      · exact absurd ⟨hla', hlb', hlc'⟩ (hcb x y z)
      · exact ⟨c, hmem, hcb⟩
    rw [obminimize_angle_bad ids groups rest
      (fun c hc => hall c (List.mem_cons_of_mem _ hc)) hbad']

/-- When every torsion-constraint reference resolves to a singleton, the
torsion loop of `obminimize.py` succeeds. -/
theorem obminimize_torsion_ok (ids : List (String × Int))
    (groups : List (String × List Int)) :
    ∀ cs : List (String × String × String × String × Option ℚ),
      (∀ c ∈ cs, (∃ x, convert_name_to_index c.1 ids groups = .ok [x])
        ∧ (∃ y, convert_name_to_index c.2.1 ids groups = .ok [y])
        ∧ (∃ z, convert_name_to_index c.2.2.1 ids groups = .ok [z])
        ∧ (∃ w, convert_name_to_index c.2.2.2.1 ids groups = .ok [w])) →
      ∃ out, obminimize_torsion_constraints ids groups cs = .ok out
  | [], _ => ⟨[], rfl⟩
  | (ca, cb, cc, cd, ctor) :: rest, hall => by
    obtain ⟨⟨x, hx⟩, ⟨y, hy⟩, ⟨z, hz⟩, ⟨w, hw⟩⟩ := hall (ca, cb, cc, cd, ctor)
      (List.mem_cons_self _ _)
    have hx' : convert_name_to_index ca ids groups = .ok [x] := hx
    have hy' : convert_name_to_index cb ids groups = .ok [y] := hy
    have hz' : convert_name_to_index cc ids groups = .ok [z] := hz
    have hw' : convert_name_to_index cd ids groups = .ok [w] := hw
    obtain ⟨out, hout⟩ := obminimize_torsion_ok ids groups rest
      (fun c hc => hall c (List.mem_cons_of_mem _ hc))
    refine ⟨(x, y, z, w, ctor) :: out, ?_⟩
    simp only [obminimize_torsion_constraints]
    rw [hx', hy', hz', hw', hout]

/-- When every torsion-constraint reference resolves but some constraint
has a reference that does not resolve to a singleton, the torsion loop of
`obminimize.py` fails with the unpacking error. -/
theorem obminimize_torsion_bad (ids : List (String × Int))
    (groups : List (String × List Int)) :
    ∀ cs : List (String × String × String × String × Option ℚ),
      (∀ c ∈ cs, (∃ la, convert_name_to_index c.1 ids groups = .ok la)
        ∧ (∃ lb, convert_name_to_index c.2.1 ids groups = .ok lb)
        ∧ (∃ lc, convert_name_to_index c.2.2.1 ids groups = .ok lc)
        ∧ (∃ ld, convert_name_to_index c.2.2.2.1 ids groups = .ok ld)) →
      (∃ c ∈ cs, ∀ x y z w, ¬ (convert_name_to_index c.1 ids groups = .ok [x]
          ∧ convert_name_to_index c.2.1 ids groups = .ok [y]
          ∧ convert_name_to_index c.2.2.1 ids groups = .ok [z]
          ∧ convert_name_to_index c.2.2.2.1 ids groups = .ok [w])) →
      obminimize_torsion_constraints ids groups cs = .error .unpackError
  | [], _, hbad => absurd hbad (by simp)
  | (ca, cb, cc, cd, ctor) :: rest, hall, hbad => by
    obtain ⟨⟨la, hla⟩, ⟨lb, hlb⟩, ⟨lc, hlc⟩, ⟨ld, hld⟩⟩ := hall (ca, cb, cc, cd, ctor)
      (List.mem_cons_self _ _)
    have hla' : convert_name_to_index ca ids groups = .ok la := hla
    have hlb' : convert_name_to_index cb ids groups = .ok lb := hlb
    have hlc' : convert_name_to_index cc ids groups = .ok lc := hlc
    have hld' : convert_name_to_index cd ids groups = .ok ld := hld
    simp only [obminimize_torsion_constraints]
    rw [hla', hlb', hlc', hld']
    rcases la with _ | ⟨x, _ | ⟨x2, la⟩⟩ <;> rcases lb with _ | ⟨y, _ | ⟨y2, lb⟩⟩ <;>
      rcases lc with _ | ⟨z, _ | ⟨z2, lc⟩⟩ <;> rcases ld with _ | ⟨w, _ | ⟨w2, ld⟩⟩ <;>
      try rfl
    have hbad' : ∃ c ∈ rest, ∀ x y z w,
        ¬ (convert_name_to_index c.1 ids groups = .ok [x]
          ∧ convert_name_to_index c.2.1 ids groups = .ok [y]
          ∧ convert_name_to_index c.2.2.1 ids groups = .ok [z]
          ∧ convert_name_to_index c.2.2.2.1 ids groups = .ok [w]) := by
      rcases hbad with ⟨c, hc, hcb⟩
      rcases List.mem_cons.mp hc with rfl | hmem
      · exact absurd ⟨hla', hlb', hlc', hld'⟩ (hcb x y z w)
      · exact ⟨c, hmem, hcb⟩
    rw [obminimize_torsion_bad ids groups rest
      (fun c hc => hall c (List.mem_cons_of_mem _ hc)) hbad']

/-- C10: both the distance-check tool and each constraint-resolution loop
of the minimizer destructure every resolved reference into a
single-element list. A reference that resolves to a sequence of length
other than one makes the run fail with the unpacking error (in the
distance tool this happens before any distance failure can be produced),
and under the precondition that every reference resolves to exactly one
index the unpacking failure is unreachable. -/
theorem claim_C10 (a b : String) (ids : List (String × Int))
    (groups : List (String × List Int)) (dist : Int → Int → ℚ)
    (min_value max_value : ℚ) (type_of : Int → String)
    (cs_d : List (String × String × Option ℚ))
    (cs_a : List (String × String × String × Option ℚ))
    (cs_t : List (String × String × String × String × Option ℚ)) :
    (∀ la lb, convert_name_to_index a ids groups = .ok la →
      convert_name_to_index b ids groups = .ok lb →
      la.length ≠ 1 ∨ lb.length ≠ 1 →
      check_distance_run a b ids groups dist min_value max_value type_of
        = .error .unpackError)
    ∧ (∀ x y, convert_name_to_index a ids groups = .ok [x] →
      convert_name_to_index b ids groups = .ok [y] →
      check_distance_run a b ids groups dist min_value max_value type_of
        ≠ .error .unpackError)
    ∧ ((∀ c ∈ cs_d, (∃ x, convert_name_to_index c.1 ids groups = .ok [x])
        ∧ (∃ y, convert_name_to_index c.2.1 ids groups = .ok [y])) →
      obminimize_distance_constraints ids groups cs_d ≠ .error .unpackError)
    ∧ ((∀ c ∈ cs_d, (∃ la, convert_name_to_index c.1 ids groups = .ok la)
        ∧ (∃ lb, convert_name_to_index c.2.1 ids groups = .ok lb)) →
      (∃ c ∈ cs_d, ∀ x y, ¬ (convert_name_to_index c.1 ids groups = .ok [x]
          ∧ convert_name_to_index c.2.1 ids groups = .ok [y])) →
      obminimize_distance_constraints ids groups cs_d = .error .unpackError)
    ∧ ((∀ c ∈ cs_a, (∃ x, convert_name_to_index c.1 ids groups = .ok [x])
        ∧ (∃ y, convert_name_to_index c.2.1 ids groups = .ok [y])
        ∧ (∃ z, convert_name_to_index c.2.2.1 ids groups = .ok [z])) →
      obminimize_angle_constraints ids groups cs_a ≠ .error .unpackError)
    ∧ ((∀ c ∈ cs_a, (∃ la, convert_name_to_index c.1 ids groups = .ok la)
        ∧ (∃ lb, convert_name_to_index c.2.1 ids groups = .ok lb)
        ∧ (∃ lc, convert_name_to_index c.2.2.1 ids groups = .ok lc)) →
      (∃ c ∈ cs_a, ∀ x y z, ¬ (convert_name_to_index c.1 ids groups = .ok [x]
          ∧ convert_name_to_index c.2.1 ids groups = .ok [y]
          ∧ convert_name_to_index c.2.2.1 ids groups = .ok [z])) →
      obminimize_angle_constraints ids groups cs_a = .error .unpackError)
    ∧ ((∀ c ∈ cs_t, (∃ x, convert_name_to_index c.1 ids groups = .ok [x])
        ∧ (∃ y, convert_name_to_index c.2.1 ids groups = .ok [y])
        ∧ (∃ z, convert_name_to_index c.2.2.1 ids groups = .ok [z])
        ∧ (∃ w, convert_name_to_index c.2.2.2.1 ids groups = .ok [w])) →
      obminimize_torsion_constraints ids groups cs_t ≠ .error .unpackError)
    ∧ ((∀ c ∈ cs_t, (∃ la, convert_name_to_index c.1 ids groups = .ok la)
        ∧ (∃ lb, convert_name_to_index c.2.1 ids groups = .ok lb)
        ∧ (∃ lc, convert_name_to_index c.2.2.1 ids groups = .ok lc)
        ∧ (∃ ld, convert_name_to_index c.2.2.2.1 ids groups = .ok ld)) →
      (∃ c ∈ cs_t, ∀ x y z w, ¬ (convert_name_to_index c.1 ids groups = .ok [x]
          ∧ convert_name_to_index c.2.1 ids groups = .ok [y]
          ∧ convert_name_to_index c.2.2.1 ids groups = .ok [z]
          ∧ convert_name_to_index c.2.2.2.1 ids groups = .ok [w])) →
      obminimize_torsion_constraints ids groups cs_t = .error .unpackError) := by
  refine ⟨fun la lb hla hlb hbad => ?_, fun x y hx hy => ?_,
    fun hall => ?_, obminimize_distance_bad ids groups cs_d,
    fun hall => ?_, obminimize_angle_bad ids groups cs_a,
    fun hall => ?_, obminimize_torsion_bad ids groups cs_t⟩
  · unfold check_distance_run
    rw [hla, hlb]
    rcases la with _ | ⟨x, _ | ⟨x2, la⟩⟩ <;> rcases lb with _ | ⟨y, _ | ⟨y2, lb⟩⟩ <;>
      try rfl
    rcases hbad with h | h <;> exact absurd rfl h
  · unfold check_distance_run
    rw [hx, hy]
    cases hD : distance_check (dist x y) min_value max_value (type_of x) (type_of y) <;>
      simp [Except.mapError, hD]
  · obtain ⟨out, hout⟩ := obminimize_distance_ok ids groups cs_d hall
    rw [hout]
    simp
  · obtain ⟨out, hout⟩ := obminimize_angle_ok ids groups cs_a hall
    rw [hout]
    simp
  · obtain ⟨out, hout⟩ := obminimize_torsion_ok ids groups cs_t hall
    rw [hout]
    simp

/-- C10 witness: the group `G` stored as `[0, 1]` breaks every
destructuring with the unpacking error, while references resolving to
single indices never reach it. -/
theorem claim_C10_witness :
    check_distance_run "G" "B" [("B", 1)] [("G", [0, 1])] (fun _ _ => 1) 0 2 (fun _ => "T")
      = .error .unpackError
    ∧ check_distance_run "A" "B" [("A", 0), ("B", 1)] [] (fun _ _ => 1) 0 2 (fun _ => "T")
      ≠ .error .unpackError
    ∧ obminimize_distance_constraints [("A", 0), ("B", 1)] [] [("A", "B", some 1)]
      ≠ .error .unpackError
    ∧ obminimize_distance_constraints [("B", 1)] [("G", [0, 1])] [("G", "B", some 1)]
      = .error .unpackError
    ∧ obminimize_angle_constraints [("A", 0), ("B", 1), ("C", 2)] []
      [("A", "B", "C", some 1)] ≠ .error .unpackError
    ∧ obminimize_angle_constraints [("B", 1), ("C", 2)] [("G", [0, 1])]
      [("G", "B", "C", some 1)] = .error .unpackError
    ∧ obminimize_torsion_constraints [("A", 0), ("B", 1), ("C", 2), ("D", 3)] []
      [("A", "B", "C", "D", some 1)] ≠ .error .unpackError
    ∧ obminimize_torsion_constraints [("B", 1), ("C", 2), ("D", 3)] [("G", [0, 1])]
      [("G", "B", "C", "D", some 1)] = .error .unpackError := by
  refine ⟨?_, ?_, ?_, ?_, ?_, ?_, ?_, ?_⟩
  · exact (claim_C10 "G" "B" [("B", 1)] [("G", [0, 1])] (fun _ _ => 1) 0 2 (fun _ => "T")
      [] [] []).1 [0, 1] [1] rfl rfl (Or.inl (by decide))
  · exact (claim_C10 "A" "B" [("A", 0), ("B", 1)] [] (fun _ _ => 1) 0 2 (fun _ => "T")
      [] [] []).2.1 0 1 rfl rfl
  · refine (claim_C10 "A" "B" [("A", 0), ("B", 1)] [] (fun _ _ => 1) 0 2 (fun _ => "T")
      [("A", "B", some 1)] [] []).2.2.1 ?_
    intro c hc
    rw [List.mem_singleton] at hc
    subst hc
    exact ⟨⟨0, rfl⟩, ⟨1, rfl⟩⟩
  · refine (claim_C10 "A" "B" [("B", 1)] [("G", [0, 1])] (fun _ _ => 1) 0 2 (fun _ => "T")
      [("G", "B", some 1)] [] []).2.2.2.1 ?_ ?_
    · intro c hc
      rw [List.mem_singleton] at hc
      subst hc
      exact ⟨⟨[0, 1], rfl⟩, ⟨[1], rfl⟩⟩
    · refine ⟨("G", "B", some 1), List.mem_singleton.mpr rfl, fun x y h => ?_⟩
      have h1 := h.1
      rw [show convert_name_to_index ("G", "B", (some 1 : Option ℚ)).1 [("B", 1)]
        [("G", [0, 1])] = .ok [0, 1] from rfl] at h1
      simp at h1
  · refine (claim_C10 "A" "B" [("A", 0), ("B", 1), ("C", 2)] [] (fun _ _ => 1) 0 2
      (fun _ => "T") [] [("A", "B", "C", some 1)] []).2.2.2.2.1 ?_
    intro c hc
    rw [List.mem_singleton] at hc
    subst hc
    exact ⟨⟨0, rfl⟩, ⟨1, rfl⟩, ⟨2, rfl⟩⟩
  · refine (claim_C10 "A" "B" [("B", 1), ("C", 2)] [("G", [0, 1])] (fun _ _ => 1) 0 2
      (fun _ => "T") [] [("G", "B", "C", some 1)] []).2.2.2.2.2.1 ?_ ?_
    · intro c hc
      rw [List.mem_singleton] at hc
      subst hc
      exact ⟨⟨[0, 1], rfl⟩, ⟨[1], rfl⟩, ⟨[2], rfl⟩⟩
    · refine ⟨("G", "B", "C", some 1), List.mem_singleton.mpr rfl, fun x y z h => ?_⟩
      have h1 := h.1
      rw [show convert_name_to_index ("G", "B", "C", (some 1 : Option ℚ)).1 [("B", 1), ("C", 2)]
        [("G", [0, 1])] = .ok [0, 1] from rfl] at h1
      simp at h1
  · refine (claim_C10 "A" "B" [("A", 0), ("B", 1), ("C", 2), ("D", 3)] [] (fun _ _ => 1) 0 2
      (fun _ => "T") [] [] [("A", "B", "C", "D", some 1)]).2.2.2.2.2.2.1 ?_
    intro c hc
    rw [List.mem_singleton] at hc
    subst hc
    exact ⟨⟨0, rfl⟩, ⟨1, rfl⟩, ⟨2, rfl⟩, ⟨3, rfl⟩⟩
  · refine (claim_C10 "A" "B" [("B", 1), ("C", 2), ("D", 3)] [("G", [0, 1])] (fun _ _ => 1)
      0 2 (fun _ => "T") [] [] [("G", "B", "C", "D", some 1)]).2.2.2.2.2.2.2 ?_ ?_
    · intro c hc
      rw [List.mem_singleton] at hc
      subst hc
      exact ⟨⟨[0, 1], rfl⟩, ⟨[1], rfl⟩, ⟨[2], rfl⟩, ⟨[3], rfl⟩⟩
    · refine ⟨("G", "B", "C", "D", some 1), List.mem_singleton.mpr rfl, fun x y z w h => ?_⟩
      have h1 := h.1
      rw [show convert_name_to_index ("G", "B", "C", "D", (some 1 : Option ℚ)).1
        [("B", 1), ("C", 2), ("D", 3)] [("G", [0, 1])] = .ok [0, 1] from rfl] at h1
      simp at h1
